import Mathlib

/-
Formal model of the response-verification core of libu2f-server
(src/u2f-server/core.c), as a shallow embedding in Lean 4.

Modelling conventions:
  - Byte strings are `List Nat` with entries intended `< 256`; C strings are
    NUL-free byte lists, and `strcmp x y = 0` is modelled by list equality.
  - External collaborators that are not part of core.c (the json-c tokenizer,
    the libb64 block decoder, and the crypto.c primitives sha256 / decode_X509 /
    decode_ECDSA / extract_EC_KEY_from_X509 / verify_ECDSA / decode_user_key /
    dump_user_key / dump_X509_cert / dup_cert) are abstract parameters gathered
    in the `Externals` structure; theorems quantify over them.
  - Heap allocation is assumed to succeed, so the MEMORY_ERROR branches that
    only fire on malloc/calloc/strdup failure are dead in the model.
  - A C buffer read `data[i]` is modelled by `mem.getD i 0`, where `mem` may
    be longer than the declared length `len`: the bytes of `mem` past `len`
    model whatever the process memory holds after the buffer, which lets us
    express (and detect) out-of-bounds reads.
  - `size_t` subtraction is modelled with an explicit wrap modulo 2^64.
-/

set_option maxRecDepth 8192

deriving instance DecidableEq for Except

abbrev Bytes := List Nat

/-- Return codes of the library (u2fs_rc in u2f-server.h, spec section 7). -/
inductive u2fs_rc where
  | OK
  | MEMORY_ERROR
  | JSON_ERROR
  | BASE64_ERROR
  | CRYPTO_ERROR
  | ORIGIN_ERROR
  | CHALLENGE_ERROR
  | SIGNATURE_ERROR
  | FORMAT_ERROR
deriving DecidableEq, Repr

/-- Ceremony context (u2fs_ctx_t): appid, origin, challenge, keyHandle and the
stored user public key.  The challenge buffer is a C array; an unset challenge
is the empty string `[]`. -/
structure u2fs_ctx_t where
  challenge : Bytes
  origin : Bytes
  appid : Bytes
  keyHandle : Bytes
  key : Bytes
deriving DecidableEq, Repr

/-- External collaborators of core.c (json-c, libb64, crypto.c, sha256.c).
They are abstract: theorems hold for every behaviour of these functions,
and counterexamples instantiate them with concrete admissible behaviours.
`sha256` folds the streaming init/process/done interface over the
concatenation of the processed chunks. -/
structure Externals where
  sha256 : Bytes → Bytes
  base64_decode : Bytes → Bytes
  json_tokener_parse : Bytes → Option (String → Option Bytes)
  decode_X509 : Bytes → Except u2fs_rc Bytes
  decode_ECDSA : Bytes → Except u2fs_rc Bytes
  extract_EC_KEY_from_X509 : Bytes → Except u2fs_rc Bytes
  verify_ECDSA : Bytes → Bytes → Bytes → u2fs_rc
  decode_user_key : Bytes → Except u2fs_rc Bytes
  dump_user_key : Bytes → Except u2fs_rc Bytes
  dump_X509_cert : Bytes → Except u2fs_rc Bytes
  dup_cert : Bytes → Bytes

/-- Result of parse_registrationData2: the five out-parameters. -/
structure RegParse where
  user_public_key : Bytes
  keyHandle_len : Nat
  keyHandle : Bytes
  attestation_certificate : Bytes
  signature : Bytes
deriving DecidableEq, Repr

/-- Result of parse_signatureData2: the three out-parameters.  `counter` is
the raw 4 wire bytes memcpy'd into the uint32 (kept as bytes, since both the
transcript and the byte-swap read them back from memory). -/
structure SigParse where
  user_presence : Nat
  counter : Bytes
  signature : Bytes
deriving DecidableEq, Repr

/-- Registration result struct (u2fs_reg_res_t).  Fields are `none` when the
corresponding pointer is still NULL (the struct is calloc'd). -/
structure u2fs_reg_res_t where
  keyHandle : Option Bytes
  publicKey : Option Bytes
  attestation_certificate_PEM : Option Bytes
  attestation_certificate : Option Bytes
deriving DecidableEq, Repr

/-- Authentication result struct (u2fs_auth_res_t). -/
structure u2fs_auth_res_t where
  verified : u2fs_rc
  counter : Nat
  user_presence : Nat
deriving DecidableEq, Repr

/-- Outcome of u2fs_registration_verify: the returned rc, the final value of
the caller's `*output` pointer, and (for observability) the byte sequence
hashed into the signed digest together with whether verify_ECDSA was reached. -/
structure RegOutcome where
  rc : u2fs_rc
  output : Option u2fs_reg_res_t
  transcript : Option Bytes
  verifyCalled : Bool
deriving DecidableEq, Repr

/-- Outcome of u2fs_authentication_verify, instrumented like `RegOutcome`. -/
structure AuthOutcome where
  rc : u2fs_rc
  output : Option u2fs_auth_res_t
  transcript : Option Bytes
  verifyCalled : Bool
deriving DecidableEq, Repr

/-- parse_registrationData2 (core.c lines 561-668).  `mem` is the process
memory starting at the decoded buffer, `len` the decoded length (the bytes of
`mem` past `len` are not part of the buffer).  The certificate length is
recovered from the DER header with no check against the remaining buffer,
exactly as in the source; `size_t signature_len = len - offset` wraps
modulo 2^64. -/
def parse_registrationData2 (ext : Externals) (mem : Bytes) (len : Nat) :
    Except u2fs_rc RegParse :=
  if len ≤ 1 + 65 + 1 + 64 then .error .FORMAT_ERROR
  else if mem.getD 0 0 ≠ 0x05 then .error .FORMAT_ERROR
  else
    let user_public_key := (mem.drop 1).take 65
    let keyHandle_len := mem.getD 66 0
    let keyHandle := (mem.drop 67).take keyHandle_len
    let offset := 67 + keyHandle_len
    let attestation_certificate_len :=
      ((mem.getD (offset + 2) 0) <<< 8) + mem.getD (offset + 3) 0 + 4
    match ext.decode_X509 ((mem.drop offset).take attestation_certificate_len) with
    | .error rc => .error rc
    | .ok attestation_certificate =>
      let offset2 := offset + attestation_certificate_len
      let signature_len := (len + 2 ^ 64 - offset2) % 2 ^ 64
      match ext.decode_ECDSA ((mem.drop offset2).take signature_len) with
      | .error rc => .error rc
      | .ok signature =>
        .ok ⟨user_public_key, keyHandle_len, keyHandle, attestation_certificate, signature⟩

/-- parse_registrationData (core.c lines 670-708): base64-decode then parse
the binary blob; the buffer holds exactly the decoded bytes. -/
def parse_registrationData (ext : Externals) (registrationData : Bytes) :
    Except u2fs_rc RegParse :=
  let data := ext.base64_decode registrationData
  parse_registrationData2 ext data data.length

/-- parse_signatureData2 (core.c lines 1041-1084).  The presence byte is
masked to its low bit before the presence check; the counter is the 4 raw
wire bytes. -/
def parse_signatureData2 (ext : Externals) (mem : Bytes) (len : Nat) :
    Except u2fs_rc SigParse :=
  if len ≤ 1 + 4 then .error .FORMAT_ERROR
  else
    let user_presence := mem.getD 0 0 &&& 0x01
    if user_presence = 0 then .error .FORMAT_ERROR
    else
      let counter := (mem.drop 1).take 4
      match ext.decode_ECDSA ((mem.drop 5).take (len - 5)) with
      | .error rc => .error rc
      | .ok signature => .ok ⟨user_presence, counter, signature⟩

/-- parse_signatureData (core.c lines 1086-1120). -/
def parse_signatureData (ext : Externals) (signatureData : Bytes) :
    Except u2fs_rc SigParse :=
  let data := ext.base64_decode signatureData
  parse_signatureData2 ext data data.length

/-- decode_clientData (core.c lines 710-742): base64-decode, then
`strndup(data, strlen(data))` keeps the bytes up to the first NUL. -/
def decode_clientData (ext : Externals) (clientData : Bytes) : Bytes :=
  (ext.base64_decode clientData).takeWhile (fun b => b ≠ 0)

/-- parse_clientData (core.c lines 468-507): JSON-parse the decoded
clientData and extract the "challenge" and "origin" string members.  A
missing member or a non-string value is a JSON_ERROR (modelled by the json
object map returning `none` for the key). -/
def parse_clientData (ext : Externals) (clientData : Bytes) :
    Except u2fs_rc (Bytes × Bytes) :=
  match ext.json_tokener_parse clientData with
  | none => .error .JSON_ERROR
  | some jo =>
    match jo "challenge" with
    | none => .error .JSON_ERROR
    | some challenge =>
      match jo "origin" with
      | none => .error .JSON_ERROR
      | some origin => .ok (challenge, origin)

/-- parse_registration_response (core.c lines 512-545): extract the
"registrationData" and "clientData" members of the response JSON. -/
def parse_registration_response (ext : Externals) (response : Bytes) :
    Except u2fs_rc (Bytes × Bytes) :=
  match ext.json_tokener_parse response with
  | none => .error .JSON_ERROR
  | some jo =>
    match jo "registrationData" with
    | none => .error .JSON_ERROR
    | some registrationData =>
      match jo "clientData" with
      | none => .error .JSON_ERROR
      | some clientData => .ok (registrationData, clientData)

/-- parse_authentication_response (core.c lines 1122-1164): extract
"signatureData", "clientData" and "keyHandle". -/
def parse_authentication_response (ext : Externals) (response : Bytes) :
    Except u2fs_rc (Bytes × Bytes × Bytes) :=
  match ext.json_tokener_parse response with
  | none => .error .JSON_ERROR
  | some jo =>
    match jo "signatureData" with
    | none => .error .JSON_ERROR
    | some signatureData =>
      match jo "clientData" with
      | none => .error .JSON_ERROR
      | some clientData =>
        match jo "keyHandle" with
        | none => .error .JSON_ERROR
        | some keyHandle => .ok (signatureData, clientData, keyHandle)

/-- Modelled from the spec: the websafe base64 alphabet of RFC 4648 section 5
(the bundled b64/cencode.c, b64/cdecode.c are not under src/).  Maps a 6-bit
index to its character code. -/
def b64uChar (n : Nat) : Nat :=
  if n < 26 then 65 + n
  else if n < 52 then 97 + (n - 26)
  else if n < 62 then 48 + (n - 52)
  else if n = 62 then 45
  else 95

/-- Modelled from the spec: inverse alphabet lookup for websafe base64. -/
def b64uIndex (c : Nat) : Nat :=
  if 65 ≤ c ∧ c ≤ 90 then c - 65
  else if 97 ≤ c ∧ c ≤ 122 then c - 97 + 26
  else if 48 ≤ c ∧ c ≤ 57 then c - 48 + 52
  else if c = 45 then 62
  else 63

/-- Modelled from the spec: canonical unpadded websafe base64 encoding
(spec section 4.1), the behaviour of encode_b64u (core.c lines 47-62) whose
worker base64_encode_block is not under src/. -/
def encodeB64U : Bytes → Bytes
  | [] => []
  | [a] => [b64uChar (a / 4), b64uChar (a % 4 * 16)]
  | [a, b] => [b64uChar (a / 4), b64uChar (a % 4 * 16 + b / 16), b64uChar (b % 16 * 4)]
  | a :: b :: c :: rest =>
      b64uChar (a / 4) :: b64uChar (a % 4 * 16 + b / 16) ::
      b64uChar (b % 16 * 4 + c / 64) :: b64uChar (c % 64) :: encodeB64U rest

/-- Modelled from the spec: unpadded websafe base64 decoding, inverse of
`encodeB64U`. -/
def decodeB64U : Bytes → Bytes
  | [] => []
  | [_] => []
  | [c1, c2] => [b64uIndex c1 * 4 + b64uIndex c2 / 16]
  | [c1, c2, c3] =>
      [b64uIndex c1 * 4 + b64uIndex c2 / 16, b64uIndex c2 % 16 * 16 + b64uIndex c3 / 4]
  | c1 :: c2 :: c3 :: c4 :: rest =>
      (b64uIndex c1 * 4 + b64uIndex c2 / 16) ::
      (b64uIndex c2 % 16 * 16 + b64uIndex c3 / 4) ::
      (b64uIndex c3 % 4 * 64 + b64uIndex c4) :: decodeB64U rest

/-- gen_challenge (core.c lines 64-77): keep a nonempty challenge, otherwise
websafe-encode 32 fresh random bytes (`rand`; set_random_bytes is modelled
from the spec as an injected source of 32 random bytes). -/
def gen_challenge (ctx : u2fs_ctx_t) (rand : Bytes) : Bytes :=
  if ctx.challenge = [] then encodeB64U rand else ctx.challenge

/-- The value of the uint32 `counter` after `memcpy(&counter, data+1, 4)`,
on a little-endian host (the build target): byte 0 is least significant. -/
def counterLE (ctr : Bytes) : Nat :=
  ctr.getD 0 0 + ctr.getD 1 0 * 256 + ctr.getD 2 0 * 65536 + ctr.getD 3 0 * 16777216

/-- The byte swap of core.c lines 1278-1282:
counter_num collects the four masked and shifted byte fields of `counter`. -/
def bswap32 (c : Nat) : Nat :=
  ((c &&& 0xFF000000) >>> 24) ||| ((c &&& 0x00FF0000) >>> 8) |||
  ((c &&& 0x0000FF00) <<< 8) ||| ((c &&& 0x000000FF) <<< 24)

/-- Big-endian 4-byte encoding of a 32-bit value (spec section 4.3.2). -/
def beBytes4 (n : Nat) : Bytes :=
  [n / 16777216 % 256, n / 65536 % 256, n / 256 % 256, n % 256]

/-- u2fs_registration_verify (core.c lines 755-984), from the point where the
argument null checks have passed.  `rand` feeds gen_challenge when the context
has no challenge.  On the success path the output struct is filled in the
order of the source; on any error after `*output = calloc(...)` (line 869) the
failure block returns with `*output` still set, exactly as the source does. -/
def u2fs_registration_verify (ext : Externals) (ctx : u2fs_ctx_t) (rand : Bytes)
    (response : Bytes) : RegOutcome :=
  match parse_registration_response ext response with
  | .error rc => ⟨rc, none, none, false⟩
  | .ok (registrationData, clientData) =>
    match parse_registrationData ext registrationData with
    | .error rc => ⟨rc, none, none, false⟩
    | .ok p =>
      match ext.extract_EC_KEY_from_X509 p.attestation_certificate with
      | .error rc => ⟨rc, none, none, false⟩
      | .ok key =>
        let clientData_decoded := decode_clientData ext clientData
        match parse_clientData ext clientData_decoded with
        | .error rc => ⟨rc, none, none, false⟩
        | .ok (challenge, origin) =>
          let chal := gen_challenge ctx rand
          if chal = challenge then
            if ctx.origin = origin then
              let application_parameter := ext.sha256 ctx.appid
              let challenge_parameter := ext.sha256 clientData_decoded
              let transcript :=
                0x00 :: application_parameter ++ challenge_parameter ++
                  p.keyHandle ++ p.user_public_key
              let dgst := ext.sha256 transcript
              let rcv := ext.verify_ECDSA dgst p.signature key
              if rcv = .OK then
                let o0 : u2fs_reg_res_t := ⟨some (encodeB64U p.keyHandle), none, none, none⟩
                match ext.decode_user_key p.user_public_key with
                | .error rc => ⟨rc, some o0, some transcript, true⟩
                | .ok key_ptr =>
                  let dupc := ext.dup_cert p.attestation_certificate
                  let o1 := { o0 with attestation_certificate := some dupc }
                  match ext.dump_user_key key_ptr with
                  | .error rc => ⟨rc, some o1, some transcript, true⟩
                  | .ok pk =>
                    let o2 := { o1 with publicKey := some pk }
                    match ext.dump_X509_cert p.attestation_certificate with
                    | .error rc => ⟨rc, some o2, some transcript, true⟩
                    | .ok pem =>
                      let o3 := { o2 with attestation_certificate_PEM := some pem }
                      ⟨.OK, some o3, some transcript, true⟩
              else ⟨rcv, none, some transcript, true⟩
            else ⟨.ORIGIN_ERROR, none, none, false⟩
          else ⟨.CHALLENGE_ERROR, none, none, false⟩

/-- u2fs_authentication_verify (core.c lines 1177-1345), from the point where
the argument null checks have passed.  Note there is no gen_challenge call:
the context challenge is compared as stored. -/
def u2fs_authentication_verify (ext : Externals) (ctx : u2fs_ctx_t)
    (response : Bytes) : AuthOutcome :=
  match parse_authentication_response ext response with
  | .error rc => ⟨rc, none, none, false⟩
  | .ok (signatureData, clientData, _keyHandle) =>
    match parse_signatureData ext signatureData with
    | .error rc => ⟨rc, none, none, false⟩
    | .ok s =>
      let clientData_decoded := decode_clientData ext clientData
      match parse_clientData ext clientData_decoded with
      | .error rc => ⟨rc, none, none, false⟩
      | .ok (challenge, origin) =>
        if ctx.challenge = challenge then
          if ctx.origin = origin then
            let application_parameter := ext.sha256 ctx.appid
            let challenge_parameter := ext.sha256 clientData_decoded
            let transcript :=
              application_parameter ++ [s.user_presence] ++ s.counter ++
                challenge_parameter
            let dgst := ext.sha256 transcript
            let rcv := ext.verify_ECDSA dgst s.signature ctx.key
            if rcv = .OK then
              let counter_num := bswap32 (counterLE s.counter)
              ⟨.OK, some ⟨.OK, counter_num, s.user_presence⟩, some transcript, true⟩
            else ⟨rcv, none, some transcript, true⟩
          else ⟨.ORIGIN_ERROR, none, none, false⟩
        else ⟨.CHALLENGE_ERROR, none, none, false⟩

/-
Concrete instances.  They instantiate the abstract external collaborators
with small admissible behaviours so that whole verification runs can be
evaluated on explicit inputs.
-/

/-- A decoded registrationData blob of exactly 132 bytes: reserved byte 0x05,
65 public-key bytes, key-handle length 0, a DER header 30 82 00 00 declaring
a 4-byte certificate, and 61 remaining signature bytes. -/
def regBlob : Bytes :=
  [5] ++ List.replicate 65 0 ++ [0] ++ [48, 130, 0, 0] ++ [48] ++ List.replicate 60 0

/-- A decoded signatureData blob: presence byte 0x03 (low bit set), counter
bytes 00 00 00 07, one signature byte. -/
def sigBlob : Bytes := [3, 0, 0, 0, 7, 48]

/-- `sigBlob` with the presence low bit cleared (byte 0x02). -/
def sigBlobNP : Bytes := [2, 0, 0, 0, 7, 48]

/-- Concrete externals: the hash is a constant 32-byte digest, the DER
decoders accept their input slice, signature verification succeeds, and the
json/base64 layers map the fixed tokens used by the concrete runs. -/
def ext0 : Externals where
  sha256 := fun _ => List.replicate 32 0
  base64_decode := fun s =>
    if s = [82] then regBlob
    else if s = [83] then sigBlob
    else if s = [84] then sigBlobNP
    else if s = [67] then [123]
    else []
  json_tokener_parse := fun r =>
    if r = [114] then some (fun k =>
      if k = "registrationData" then some [82]
      else if k = "clientData" then some [67] else none)
    else if r = [97] then some (fun k =>
      if k = "signatureData" then some [83]
      else if k = "clientData" then some [67]
      else if k = "keyHandle" then some [75] else none)
    else if r = [98] then some (fun k =>
      if k = "signatureData" then some [84]
      else if k = "clientData" then some [67]
      else if k = "keyHandle" then some [75] else none)
    else if r = [123] then some (fun k =>
      if k = "challenge" then some [65]
      else if k = "origin" then some [66] else none)
    else none
  decode_X509 := fun b => .ok b
  decode_ECDSA := fun b => .ok b
  extract_EC_KEY_from_X509 := fun b => .ok b
  verify_ECDSA := fun _ _ _ => .OK
  decode_user_key := fun b => .ok b
  dump_user_key := fun b => .ok b
  dump_X509_cert := fun b => .ok b
  dup_cert := fun b => b

/-- `ext0` with a decode_user_key consistent with spec section 4.2: a user
public key whose leading byte is not 0x04 or whose length is not 65 is
rejected with FORMAT_ERROR. -/
def ext5 : Externals :=
  { ext0 with decode_user_key := fun b =>
      if b.getD 0 0 = 4 ∧ b.length = 65 then .ok b else .error .FORMAT_ERROR }

/-- A context whose challenge, origin and appid match the concrete runs. -/
def ctx0 : u2fs_ctx_t := ⟨[65], [66], [65], [75], []⟩

/-- `ctx0` with a different (one byte changed) challenge. -/
def ctxChal : u2fs_ctx_t := ⟨[70], [66], [65], [75], []⟩

/-- `ctx0` with a different origin. -/
def ctxOrig : u2fs_ctx_t := ⟨[65], [71], [65], [75], []⟩

/-- The parse result of `regBlob`. -/
def regParse0 : RegParse :=
  ⟨List.replicate 65 0, 0, [], [48, 130, 0, 0], [48] ++ List.replicate 60 0⟩

/-- The parse result of `sigBlob`. -/
def sigParse0 : SigParse := ⟨1, [0, 0, 0, 7], [48]⟩

/-- Process memory holding a decoded registrationData buffer of declared
length 133 whose DER certificate header (bytes 30 82 00 80 at offsets 67-70)
declares a 132-byte certificate although only 66 bytes remain in the buffer;
the 72 bytes past index 132 model whatever follows the buffer on the heap. -/
def mem3 : Bytes :=
  [5] ++ List.replicate 65 0 ++ [0] ++ [48, 130, 0, 128] ++
    List.replicate 128 0 ++ [48] ++ List.replicate 5 0

/-- Same first 133 bytes as `mem3`, different heap contents past the buffer. -/
def mem3' : Bytes :=
  [5] ++ List.replicate 65 0 ++ [0] ++ [48, 130, 0, 128] ++ List.replicate 134 0

/-- A context with no challenge set. -/
def ctxEmpty : u2fs_ctx_t := ⟨[], [66], [65], [75], []⟩

/-- The authentication transcript as built by core.c lines 1254-1262:
SHA256(appid) || user_presence (1 byte, as stored by parse_signatureData2) ||
counter (4 wire bytes) || SHA256(decoded clientData). -/
def authTranscript (ext : Externals) (ctx : u2fs_ctx_t) (cd : Bytes) (s : SigParse) : Bytes :=
  ext.sha256 ctx.appid ++ [s.user_presence] ++ s.counter ++ ext.sha256 (decode_clientData ext cd)

/-- The registration transcript as built by core.c lines 850-859:
0x00 || SHA256(appid) || SHA256(decoded clientData) || key handle || user
public key. -/
def regTranscript (ext : Externals) (ctx : u2fs_ctx_t) (cd : Bytes) (p : RegParse) : Bytes :=
  0x00 :: ext.sha256 ctx.appid ++ ext.sha256 (decode_clientData ext cd) ++
    p.keyHandle ++ p.user_public_key

/-
Helper lemmas.
-/

/-- A byte-sized mask: and-ing with 255 shifted up by k bits extracts byte k. -/
theorem land_byteMask (x k : Nat) : x &&& 255 * 2 ^ k = x / 2 ^ k % 256 * 2 ^ k := by
  apply Nat.eq_of_testBit_eq
  intro i
  rw [Nat.testBit_land]
  by_cases hk : k ≤ i
  · have e1 : (255 * 2 ^ k).testBit i = decide (i - k < 8) := by
      rw [← Nat.shiftLeft_eq, Nat.testBit_shiftLeft]
      rw [show (255 : Nat) = 2 ^ 8 - 1 from rfl, Nat.testBit_two_pow_sub_one]
      simp [hk]
    have e2 : (x / 2 ^ k % 256 * 2 ^ k).testBit i
        = (decide (i - k < 8) && x.testBit i) := by
      rw [← Nat.shiftLeft_eq, Nat.testBit_shiftLeft]
      rw [show (256 : Nat) = 2 ^ 8 from rfl, Nat.testBit_mod_two_pow,
        ← Nat.shiftRight_eq_div_pow, Nat.testBit_shiftRight, Nat.add_sub_cancel' hk]
      simp [hk]
    rw [e1, e2]
    cases x.testBit i <;> simp
  · have e1 : (255 * 2 ^ k).testBit i = false := by
      rw [← Nat.shiftLeft_eq, Nat.testBit_shiftLeft]
      simp [hk]
    have e2 : (x / 2 ^ k % 256 * 2 ^ k).testBit i = false := by
      rw [← Nat.shiftLeft_eq, Nat.testBit_shiftLeft]
      simp [hk]
    simp [e1, e2]

/-- Disjoint or is addition: a low part below 2^k ored with a multiple of 2^k. -/
theorem lor_add_small (a b k : Nat) (hb : b < 2 ^ k) : b ||| a * 2 ^ k = a * 2 ^ k + b := by
  rw [Nat.or_comm, Nat.mul_comm a]
  exact (Nat.mul_add_lt_is_or hb a).symm

/-- `lor_add_small` with the power given as a literal. -/
theorem lor_add_small' (a b m k : Nat) (hm : m = 2 ^ k) (hb : b < m) :
    b ||| a * m = a * m + b := by
  subst hm
  exact lor_add_small a b k hb

/-- The byte swap of core.c lines 1278-1282 reverses the four bytes of a
32-bit value given in little-endian composition. -/
theorem bswap32_bytes (c0 c1 c2 c3 : Nat) (h0 : c0 < 256) (h1 : c1 < 256)
    (h2 : c2 < 256) (h3 : c3 < 256) :
    bswap32 (c0 + c1 * 256 + c2 * 65536 + c3 * 16777216)
      = c3 + c2 * 256 + c1 * 65536 + c0 * 16777216 := by
  set c := c0 + c1 * 256 + c2 * 65536 + c3 * 16777216 with hc
  have m24 : c &&& 0xFF000000 = c3 * 16777216 := by
    have h := land_byteMask c 24
    norm_num at h
    rw [show (0xFF000000 : Nat) = 4278190080 from rfl, h]
    omega
  have m16 : c &&& 0x00FF0000 = c2 * 65536 := by
    have h := land_byteMask c 16
    norm_num at h
    rw [show (0x00FF0000 : Nat) = 16711680 from rfl, h]
    omega
  have m8 : c &&& 0x0000FF00 = c1 * 256 := by
    have h := land_byteMask c 8
    norm_num at h
    rw [show (0x0000FF00 : Nat) = 65280 from rfl, h]
    omega
  have m0 : c &&& 0x000000FF = c0 := by
    have h := Nat.and_pow_two_sub_one_eq_mod c 8
    norm_num at h
    rw [show (0x000000FF : Nat) = 255 from rfl, h]
    omega
  have t1 : (c3 * 16777216) >>> 24 = c3 := by
    rw [Nat.shiftRight_eq_div_pow, show (2 : Nat) ^ 24 = 16777216 from rfl]
    omega
  have t2 : (c2 * 65536) >>> 8 = c2 * 256 := by
    rw [Nat.shiftRight_eq_div_pow, show (2 : Nat) ^ 8 = 256 from rfl]
    omega
  have t3 : (c1 * 256) <<< 8 = c1 * 65536 := by
    rw [Nat.shiftLeft_eq, show (2 : Nat) ^ 8 = 256 from rfl]
    ring
  have t4 : c0 <<< 24 = c0 * 16777216 := by
    rw [Nat.shiftLeft_eq, show (2 : Nat) ^ 24 = 16777216 from rfl]
  unfold bswap32
  rw [m24, m16, m8, m0, t1, t2, t3, t4]
  rw [lor_add_small' c2 c3 256 8 rfl (by omega)]
  rw [lor_add_small' c1 (c2 * 256 + c3) 65536 16 rfl (by omega)]
  rw [lor_add_small' c0 (c1 * 65536 + (c2 * 256 + c3)) 16777216 24 rfl (by omega)]
  omega

/-- The websafe alphabet maps are mutually inverse on 6-bit values. -/
theorem b64uIndex_b64uChar : ∀ n < 64, b64uIndex (b64uChar n) = n := by decide

/-- Decoding inverts encoding on byte lists. -/
theorem decodeB64U_encodeB64U (b : Bytes) (hb : ∀ x ∈ b, x < 256) :
    decodeB64U (encodeB64U b) = b := by
  induction b using encodeB64U.induct with
  | case1 => rfl
  | case2 a =>
      have ha : a < 256 := hb a (by simp)
      simp only [encodeB64U, decodeB64U]
      rw [b64uIndex_b64uChar _ (by omega), b64uIndex_b64uChar _ (by omega)]
      simp only [List.cons.injEq, and_true]
      omega
  | case3 a b =>
      have ha : a < 256 := hb a (by simp)
      have hb2 : b < 256 := hb b (by simp)
      simp only [encodeB64U, decodeB64U]
      rw [b64uIndex_b64uChar _ (by omega), b64uIndex_b64uChar _ (by omega),
        b64uIndex_b64uChar _ (by omega)]
      simp only [List.cons.injEq, and_true]
      constructor
      · omega
      · omega
  | case4 a b c rest ih =>
      have ha : a < 256 := hb a (by simp)
      have hb2 : b < 256 := hb b (by simp)
      have hc : c < 256 := hb c (by simp)
      have hrest : ∀ x ∈ rest, x < 256 := fun x hx => hb x (by simp [hx])
      simp only [encodeB64U, decodeB64U]
      rw [b64uIndex_b64uChar _ (by omega), b64uIndex_b64uChar _ (by omega),
        b64uIndex_b64uChar _ (by omega), b64uIndex_b64uChar _ (by omega)]
      simp only [List.cons.injEq]
      refine ⟨by omega, by omega, by omega, ih hrest⟩

/-- Length of the unpadded websafe encoding: 4 characters per 3-byte group
plus 2 or 3 characters for a trailing group of 1 or 2 bytes. -/
theorem encodeB64U_length (b : Bytes) :
    (encodeB64U b).length =
      b.length / 3 * 4 + (if b.length % 3 = 0 then 0 else b.length % 3 + 1) := by
  induction b using encodeB64U.induct with
  | case1 => rfl
  | case2 a => norm_num [encodeB64U]
  | case3 a b => norm_num [encodeB64U]
  | case4 a b c rest ih =>
      simp only [encodeB64U, List.length_cons, ih]
      split_ifs <;> omega

/-- With a nonempty stored challenge, gen_challenge is the identity on it. -/
theorem gen_challenge_of_nonempty (ctx : u2fs_ctx_t) (rand : Bytes)
    (h : ctx.challenge ≠ []) : gen_challenge ctx rand = ctx.challenge := by
  simp [gen_challenge, h]

/-- A successful parse_signatureData2 stores the masked presence bit (which is
then 1) and the 4 raw counter bytes, and implies the length check passed. -/
theorem parse_signatureData2_ok (ext : Externals) (mem : Bytes) (len : Nat)
    (s : SigParse) (h : parse_signatureData2 ext mem len = .ok s) :
    s.user_presence = mem.getD 0 0 &&& 1 ∧ s.user_presence = 1 ∧
    s.counter = (mem.drop 1).take 4 ∧ 5 < len := by
  simp only [parse_signatureData2] at h
  split at h
  · exact absurd h (by simp)
  case isFalse hlen =>
    split at h
    · exact absurd h (by simp)
    case isFalse hup =>
      rcases hd : ext.decode_ECDSA ((mem.drop 5).take (len - 5)) with rc | sig
      all_goals rw [hd] at h
      · exact absurd h (by simp)
      · simp only [Except.ok.injEq] at h
        subst h
        refine ⟨rfl, ?_, rfl, by omega⟩
        simp only [Nat.and_one_is_mod] at hup ⊢
        omega

/-- `parse_signatureData2_ok` lifted through the base64 decode of
parse_signatureData. -/
theorem parse_signatureData_ok (ext : Externals) (sd : Bytes) (s : SigParse)
    (h : parse_signatureData ext sd = .ok s) :
    s.user_presence = (ext.base64_decode sd).getD 0 0 &&& 1 ∧ s.user_presence = 1 ∧
    s.counter = ((ext.base64_decode sd).drop 1).take 4 ∧
    5 < (ext.base64_decode sd).length :=
  parse_signatureData2_ok ext (ext.base64_decode sd) (ext.base64_decode sd).length s h

/-- parse_clientData can only fail with JSON_ERROR, never with OK. -/
theorem parse_clientData_error_ne_ok (ext : Externals) (cd : Bytes) (rc : u2fs_rc)
    (h : parse_clientData ext cd = .error rc) : rc ≠ .OK := by
  intro hOK
  subst hOK
  unfold parse_clientData at h
  rcases hj : ext.json_tokener_parse cd with _ | jo
  all_goals simp only [hj] at h
  · simp at h
  · rcases hc : jo "challenge" with _ | chal
    all_goals simp only [hc] at h
    · simp at h
    · rcases ho : jo "origin" with _ | org
      all_goals simp only [ho] at h
      · simp at h
      · simp at h

/-- parse_authentication_response can only fail with JSON_ERROR. -/
theorem parse_authentication_response_error_ne_ok (ext : Externals) (r : Bytes)
    (rc : u2fs_rc) (h : parse_authentication_response ext r = .error rc) : rc ≠ .OK := by
  intro hOK
  subst hOK
  unfold parse_authentication_response at h
  rcases hj : ext.json_tokener_parse r with _ | jo
  all_goals simp only [hj] at h
  · simp at h
  · rcases h1 : jo "signatureData" with _ | sd
    all_goals simp only [h1] at h
    · simp at h
    · rcases h2 : jo "clientData" with _ | cd
      all_goals simp only [h2] at h
      · simp at h
      · rcases h3 : jo "keyHandle" with _ | kh
        all_goals simp only [h3] at h
        · simp at h
        · simp at h

/-- parse_registration_response can only fail with JSON_ERROR. -/
theorem parse_registration_response_error_ne_ok (ext : Externals) (r : Bytes)
    (rc : u2fs_rc) (h : parse_registration_response ext r = .error rc) : rc ≠ .OK := by
  intro hOK
  subst hOK
  unfold parse_registration_response at h
  rcases hj : ext.json_tokener_parse r with _ | jo
  all_goals simp only [hj] at h
  · simp at h
  · rcases h1 : jo "registrationData" with _ | rd
    all_goals simp only [h1] at h
    · simp at h
    · rcases h2 : jo "clientData" with _ | cd
      all_goals simp only [h2] at h
      · simp at h
      · simp at h

/-- When the external DER signature decoder never fails with OK, neither does
parse_signatureData. -/
theorem parse_signatureData_error_ne_ok (ext : Externals) (sd : Bytes) (rc : u2fs_rc)
    (hde : ∀ b r, ext.decode_ECDSA b = .error r → r ≠ .OK)
    (h : parse_signatureData ext sd = .error rc) : rc ≠ .OK := by
  intro hOK
  subst hOK
  simp only [parse_signatureData, parse_signatureData2] at h
  split at h
  · simp at h
  · split at h
    · simp at h
    · rcases hd : ext.decode_ECDSA (((ext.base64_decode sd).drop 5).take
          ((ext.base64_decode sd).length - 5)) with r | sig
      all_goals rw [hd] at h
      · simp only [Except.error.injEq] at h
        exact hde _ _ hd h
      · simp at h

/-- The authentication flow, reduced under hypotheses pinning the parsing
stages: what remains are the two context equality checks and the signature
verification. -/
theorem auth_verify_eq (ext : Externals) (ctx : u2fs_ctx_t) (response sd cd kh : Bytes)
    (s : SigParse) (chal org : Bytes)
    (ha : parse_authentication_response ext response = .ok (sd, cd, kh))
    (hs : parse_signatureData ext sd = .ok s)
    (hc : parse_clientData ext (decode_clientData ext cd) = .ok (chal, org)) :
    u2fs_authentication_verify ext ctx response =
      (if ctx.challenge = chal then
        if ctx.origin = org then
          (if ext.verify_ECDSA (ext.sha256 (authTranscript ext ctx cd s)) s.signature ctx.key
              = .OK then
            ⟨.OK, some ⟨.OK, bswap32 (counterLE s.counter), s.user_presence⟩,
              some (authTranscript ext ctx cd s), true⟩
          else
            ⟨ext.verify_ECDSA (ext.sha256 (authTranscript ext ctx cd s)) s.signature ctx.key,
              none, some (authTranscript ext ctx cd s), true⟩)
        else ⟨.ORIGIN_ERROR, none, none, false⟩
      else ⟨.CHALLENGE_ERROR, none, none, false⟩) := by
  simp only [u2fs_authentication_verify, ha, hs, hc, authTranscript]

/-- The registration flow, reduced under hypotheses pinning the parsing
stages. -/
theorem reg_verify_eq (ext : Externals) (ctx : u2fs_ctx_t) (rand response rd cd : Bytes)
    (p : RegParse) (key chal org : Bytes)
    (hr : parse_registration_response ext response = .ok (rd, cd))
    (hp : parse_registrationData ext rd = .ok p)
    (hk : ext.extract_EC_KEY_from_X509 p.attestation_certificate = .ok key)
    (hc : parse_clientData ext (decode_clientData ext cd) = .ok (chal, org)) :
    u2fs_registration_verify ext ctx rand response =
      (if gen_challenge ctx rand = chal then
        if ctx.origin = org then
          (if ext.verify_ECDSA (ext.sha256 (regTranscript ext ctx cd p)) p.signature key
              = .OK then
            (match ext.decode_user_key p.user_public_key with
            | .error rc =>
                ⟨rc, some ⟨some (encodeB64U p.keyHandle), none, none, none⟩,
                  some (regTranscript ext ctx cd p), true⟩
            | .ok key_ptr =>
              match ext.dump_user_key key_ptr with
              | .error rc =>
                  ⟨rc, some ⟨some (encodeB64U p.keyHandle), none, none,
                    some (ext.dup_cert p.attestation_certificate)⟩,
                    some (regTranscript ext ctx cd p), true⟩
              | .ok pk =>
                match ext.dump_X509_cert p.attestation_certificate with
                | .error rc =>
                    ⟨rc, some ⟨some (encodeB64U p.keyHandle), some pk, none,
                      some (ext.dup_cert p.attestation_certificate)⟩,
                      some (regTranscript ext ctx cd p), true⟩
                | .ok pem =>
                    ⟨.OK, some ⟨some (encodeB64U p.keyHandle), some pk, some pem,
                      some (ext.dup_cert p.attestation_certificate)⟩,
                      some (regTranscript ext ctx cd p), true⟩)
          else
            ⟨ext.verify_ECDSA (ext.sha256 (regTranscript ext ctx cd p)) p.signature key,
              none, some (regTranscript ext ctx cd p), true⟩)
        else ⟨.ORIGIN_ERROR, none, none, false⟩
      else ⟨.CHALLENGE_ERROR, none, none, false⟩) := by
  simp only [u2fs_registration_verify, hr, hp, hk, hc, regTranscript]

/-
Claim theorems.
-/

/-- Claim C1: for every registration response accepted by
u2fs_registration_verify, the digest passed to ECDSA verification is SHA-256
of 0x00 followed by SHA256(app id), SHA256(decoded clientData), the key
handle and the 65 user public key bytes, the signature is verified against
the key extracted from the attestation certificate, and Ok is returned only
if that verification succeeds. -/
theorem C1_registration_digest (ext : Externals) (ctx : u2fs_ctx_t)
    (rand response rd cd key : Bytes) (p : RegParse)
    (hr : parse_registration_response ext response = .ok (rd, cd))
    (hp : parse_registrationData ext rd = .ok p)
    (hk : ext.extract_EC_KEY_from_X509 p.attestation_certificate = .ok key)
    (hOk : (u2fs_registration_verify ext ctx rand response).rc = .OK) :
    (u2fs_registration_verify ext ctx rand response).transcript =
      some (0x00 :: ext.sha256 ctx.appid ++ ext.sha256 (decode_clientData ext cd) ++
        p.keyHandle ++ p.user_public_key) ∧
    ext.verify_ECDSA
      (ext.sha256 (0x00 :: ext.sha256 ctx.appid ++ ext.sha256 (decode_clientData ext cd) ++
        p.keyHandle ++ p.user_public_key)) p.signature key = .OK := by
  rcases hc : parse_clientData ext (decode_clientData ext cd) with rc | ⟨chal, org⟩
  · have hne := parse_clientData_error_ne_ok ext (decode_clientData ext cd) rc hc
    simp only [u2fs_registration_verify, hr, hp, hk, hc] at hOk
    exact absurd hOk hne
  · rw [reg_verify_eq ext ctx rand response rd cd p key chal org hr hp hk hc] at hOk ⊢
    by_cases h1 : gen_challenge ctx rand = chal
    case neg => rw [if_neg h1] at hOk; exact absurd hOk (by decide)
    rw [if_pos h1] at hOk ⊢
    by_cases h2 : ctx.origin = org
    case neg => rw [if_neg h2] at hOk; exact absurd hOk (by decide)
    rw [if_pos h2] at hOk ⊢
    by_cases h3 : ext.verify_ECDSA (ext.sha256 (regTranscript ext ctx cd p)) p.signature key
        = .OK
    case neg => rw [if_neg h3] at hOk; exact absurd hOk h3
    rw [if_pos h3]
    constructor
    · rcases h4 : ext.decode_user_key p.user_public_key with rc | kp
      · simp [h4, regTranscript]
      · rcases h5 : ext.dump_user_key kp with rc | pk
        · simp [h4, h5, regTranscript]
        · rcases h6 : ext.dump_X509_cert p.attestation_certificate with rc | pem
          · simp [h4, h5, h6, regTranscript]
          · simp [h4, h5, h6, regTranscript]
    · simpa [regTranscript] using h3

/-- Witness for C1: a concrete registration run that returns OK, with the
stage hypotheses discharged by evaluation. -/
theorem C1_registration_digest_witness :
    parse_registration_response ext0 [114] = .ok ([82], [67]) ∧
    (u2fs_registration_verify ext0 ctx0 [] [114]).rc = .OK ∧
    ext0.verify_ECDSA
      (ext0.sha256 (0x00 :: ext0.sha256 ctx0.appid ++
        ext0.sha256 (decode_clientData ext0 [67]) ++
        regParse0.keyHandle ++ regParse0.user_public_key))
      regParse0.signature [48, 130, 0, 0] = .OK :=
  ⟨by decide, by decide,
    (C1_registration_digest ext0 ctx0 [] [114] [82] [67] [48, 130, 0, 0] regParse0
      (by decide) (by decide) (by decide) (by decide)).2⟩

/-- Counterexample to claim C2: a signatureData whose wire presence byte is
0x03 passes the presence check, but the one-byte user_presence field of the
authentication transcript (at index 32, right after the 32-byte
SHA256(app id)) is the masked value 1, not the raw device byte 3. -/
theorem C2_raw_presence_counterexample :
    (ext0.base64_decode [83]).getD 0 0 = 3 ∧
    (ext0.sha256 ctx0.appid).length = 32 ∧
    (u2fs_authentication_verify ext0 ctx0 [97]).rc = .OK ∧
    (u2fs_authentication_verify ext0 ctx0 [97]).transcript =
      some (List.replicate 32 0 ++ [1] ++ [0, 0, 0, 7] ++ List.replicate 32 0) ∧
    (List.replicate 32 0 ++ [1] ++ [0, 0, 0, 7] ++ List.replicate 32 0).getD 32 0 = 1 ∧
    ¬ (List.replicate 32 0 ++ [1] ++ [0, 0, 0, 7] ++ List.replicate 32 0).getD 32 0
        = (ext0.base64_decode [83]).getD 0 0 := by decide

/-- Claim C2 as amended: whenever the authentication flow builds its
transcript, the one-byte user_presence field between SHA256(app id) and the
4 counter bytes is the wire presence byte masked to its low bit (hence 1 for
every response passing the presence check), not the raw device byte. -/
theorem C2_transcript_presence_masked (ext : Externals) (ctx : u2fs_ctx_t)
    (response sd cd kh chal org : Bytes) (s : SigParse)
    (ha : parse_authentication_response ext response = .ok (sd, cd, kh))
    (hs : parse_signatureData ext sd = .ok s)
    (hc : parse_clientData ext (decode_clientData ext cd) = .ok (chal, org))
    (h1 : ctx.challenge = chal) (h2 : ctx.origin = org) :
    (u2fs_authentication_verify ext ctx response).transcript =
      some (ext.sha256 ctx.appid ++ [(ext.base64_decode sd).getD 0 0 &&& 1] ++
        ((ext.base64_decode sd).drop 1).take 4 ++ ext.sha256 (decode_clientData ext cd)) := by
  obtain ⟨hup, -, hctr, -⟩ := parse_signatureData_ok ext sd s hs
  rw [auth_verify_eq ext ctx response sd cd kh s chal org ha hs hc, if_pos h1, if_pos h2]
  by_cases h3 : ext.verify_ECDSA (ext.sha256 (authTranscript ext ctx cd s)) s.signature ctx.key
      = .OK
  · rw [if_pos h3]
    simp [authTranscript, hup, hctr]
  · rw [if_neg h3]
    simp [authTranscript, hup, hctr]

/-- Witness for the amended C2: the concrete run with wire presence byte 3
builds a transcript carrying the masked byte. -/
theorem C2_transcript_presence_masked_witness :
    parse_signatureData ext0 [83] = .ok sigParse0 ∧
    (u2fs_authentication_verify ext0 ctx0 [97]).transcript =
      some (ext0.sha256 ctx0.appid ++ [(ext0.base64_decode [83]).getD 0 0 &&& 1] ++
        ((ext0.base64_decode [83]).drop 1).take 4 ++
        ext0.sha256 (decode_clientData ext0 [67])) :=
  ⟨by decide,
    C2_transcript_presence_masked ext0 ctx0 [97] [83] [67] [75] [65] [66] sigParse0
      (by decide) (by decide) (by decide) (by decide) (by decide)⟩

/-- Claim C3 (code bug): parse_registrationData2 recovers the certificate
length from the DER header but never compares it with the remaining buffer:
on a 133-byte buffer whose header declares 132 certificate bytes with only
66 remaining, the parse does not return FORMAT_ERROR, and its result depends
on the memory beyond the declared length (an out-of-bounds read): two
memories agreeing on all 133 buffer bytes parse differently. -/
theorem C3_cert_length_unchecked :
    List.take 133 mem3 = List.take 133 mem3' ∧
    ((mem3.getD 69 0) <<< 8) + mem3.getD 70 0 + 4 = 132 ∧ 133 - 67 = 66 ∧
    parse_registrationData2 ext0 mem3 133 ≠ .error .FORMAT_ERROR ∧
    parse_registrationData2 ext0 mem3 133 ≠ parse_registrationData2 ext0 mem3' 133 := by
  decide

/-- Claim C4: a signatureData blob whose presence byte has low bit 0 makes
parse_signatureData return FORMAT_ERROR, the flow returns FORMAT_ERROR, and
ECDSA verification is never invoked on that response. -/
theorem C4_presence_gate (ext : Externals) (ctx : u2fs_ctx_t) (response sd cd kh : Bytes)
    (ha : parse_authentication_response ext response = .ok (sd, cd, kh))
    (hp : (ext.base64_decode sd).getD 0 0 &&& 1 = 0) :
    parse_signatureData ext sd = .error .FORMAT_ERROR ∧
    (u2fs_authentication_verify ext ctx response).rc = .FORMAT_ERROR ∧
    (u2fs_authentication_verify ext ctx response).verifyCalled = false := by
  have hps : parse_signatureData ext sd = .error .FORMAT_ERROR := by
    simp only [parse_signatureData, parse_signatureData2]
    by_cases hl : (ext.base64_decode sd).length ≤ 1 + 4
    · rw [if_pos hl]
    · rw [if_neg hl, if_pos hp]
  refine ⟨hps, ?_, ?_⟩ <;> simp only [u2fs_authentication_verify, ha, hps]

/-- Witness for C4: a concrete response whose decoded signatureData starts
with byte 0x02. -/
theorem C4_presence_gate_witness :
    (ext0.base64_decode [84]).getD 0 0 &&& 1 = 0 ∧
    parse_signatureData ext0 [84] = .error .FORMAT_ERROR ∧
    (u2fs_authentication_verify ext0 ctx0 [98]).rc = .FORMAT_ERROR ∧
    (u2fs_authentication_verify ext0 ctx0 [98]).verifyCalled = false :=
  ⟨by decide, C4_presence_gate ext0 ctx0 [98] [84] [67] [75] (by decide) (by decide)⟩

/-- Claim C5 (code bug): an error after the output struct has been allocated
(here: decode_user_key rejecting a user public key whose leading byte is not
0x04, after a successful signature verification) returns an error code while
the caller's output pointer is still set to the partially filled struct: the
failure block of u2fs_registration_verify never frees or nulls *output. -/
theorem C5_error_output_not_null :
    (u2fs_registration_verify ext5 ctx0 [] [114]).rc = .FORMAT_ERROR ∧
    (u2fs_registration_verify ext5 ctx0 [] [114]).rc ≠ .OK ∧
    (u2fs_registration_verify ext5 ctx0 [] [114]).output ≠ none := by decide

/-- Claim C6: in both flows the decoded clientData challenge and origin are
compared to the context values by byte-exact equality: when the parsing
stages succeed, a challenge differing in at least one byte yields
CHALLENGE_ERROR, and a matching challenge with an origin differing in at
least one byte yields ORIGIN_ERROR. -/
theorem C6_byte_exact_checks (ext : Externals) (ctx : u2fs_ctx_t)
    (rand respR rd cdR respA sd cdA khA chalR orgR chalA orgA key : Bytes)
    (p : RegParse) (s : SigParse)
    (hr : parse_registration_response ext respR = .ok (rd, cdR))
    (hp : parse_registrationData ext rd = .ok p)
    (hk : ext.extract_EC_KEY_from_X509 p.attestation_certificate = .ok key)
    (hcR : parse_clientData ext (decode_clientData ext cdR) = .ok (chalR, orgR))
    (hch : ctx.challenge ≠ [])
    (ha : parse_authentication_response ext respA = .ok (sd, cdA, khA))
    (hsp : parse_signatureData ext sd = .ok s)
    (hcA : parse_clientData ext (decode_clientData ext cdA) = .ok (chalA, orgA)) :
    (chalR ≠ ctx.challenge → (u2fs_registration_verify ext ctx rand respR).rc
      = .CHALLENGE_ERROR) ∧
    (chalR = ctx.challenge → orgR ≠ ctx.origin →
      (u2fs_registration_verify ext ctx rand respR).rc = .ORIGIN_ERROR) ∧
    (chalA ≠ ctx.challenge → (u2fs_authentication_verify ext ctx respA).rc
      = .CHALLENGE_ERROR) ∧
    (chalA = ctx.challenge → orgA ≠ ctx.origin →
      (u2fs_authentication_verify ext ctx respA).rc = .ORIGIN_ERROR) := by
  rw [reg_verify_eq ext ctx rand respR rd cdR p key chalR orgR hr hp hk hcR,
    auth_verify_eq ext ctx respA sd cdA khA s chalA orgA ha hsp hcA,
    gen_challenge_of_nonempty ctx rand hch]
  refine ⟨?_, ?_, ?_, ?_⟩
  · intro hne
    rw [if_neg (fun h => hne h.symm)]
  · intro heq hne
    rw [if_pos heq.symm, if_neg (fun h => hne h.symm)]
  · intro hne
    rw [if_neg (fun h => hne h.symm)]
  · intro heq hne
    rw [if_pos heq.symm, if_neg (fun h => hne h.symm)]

/-- Witness for C6: a context whose challenge differs in one byte gives
CHALLENGE_ERROR in both flows, and one whose origin differs gives
ORIGIN_ERROR in both flows. -/
theorem C6_byte_exact_checks_witness :
    (([65] : Bytes) ≠ ctxChal.challenge ∧
      (u2fs_registration_verify ext0 ctxChal [] [114]).rc = .CHALLENGE_ERROR ∧
      (u2fs_authentication_verify ext0 ctxChal [97]).rc = .CHALLENGE_ERROR) ∧
    (([66] : Bytes) ≠ ctxOrig.origin ∧
      (u2fs_registration_verify ext0 ctxOrig [] [114]).rc = .ORIGIN_ERROR ∧
      (u2fs_authentication_verify ext0 ctxOrig [97]).rc = .ORIGIN_ERROR) :=
  ⟨⟨by decide,
    (C6_byte_exact_checks ext0 ctxChal [] [114] [82] [67] [97] [83] [67] [75]
      [65] [66] [65] [66] [48, 130, 0, 0] regParse0 sigParse0
      (by decide) (by decide) (by decide) (by decide) (by decide) (by decide)
      (by decide) (by decide)).1 (by decide),
    (C6_byte_exact_checks ext0 ctxChal [] [114] [82] [67] [97] [83] [67] [75]
      [65] [66] [65] [66] [48, 130, 0, 0] regParse0 sigParse0
      (by decide) (by decide) (by decide) (by decide) (by decide) (by decide)
      (by decide) (by decide)).2.2.1 (by decide)⟩,
   ⟨by decide,
    (C6_byte_exact_checks ext0 ctxOrig [] [114] [82] [67] [97] [83] [67] [75]
      [65] [66] [65] [66] [48, 130, 0, 0] regParse0 sigParse0
      (by decide) (by decide) (by decide) (by decide) (by decide) (by decide)
      (by decide) (by decide)).2.1 (by decide) (by decide),
    (C6_byte_exact_checks ext0 ctxOrig [] [114] [82] [67] [97] [83] [67] [75]
      [65] [66] [65] [66] [48, 130, 0, 0] regParse0 sigParse0
      (by decide) (by decide) (by decide) (by decide) (by decide) (by decide)
      (by decide) (by decide)).2.2.2 (by decide) (by decide)⟩⟩

/-- Counterexample to claim C7: a decoded registrationData blob of exactly
132 bytes is not rejected: the minimum-length check of
parse_registrationData2 is `len <= 1 + 65 + 1 + 64`, so 132-byte inputs pass
it, and with admissible DER-decoder behaviour the blob parses successfully. -/
theorem C7_exactly_132_counterexample :
    regBlob.length = 132 ∧
    parse_registrationData2 ext0 regBlob 132 ≠ .error .FORMAT_ERROR ∧
    ext0.base64_decode [82] = regBlob ∧
    parse_registrationData ext0 [82] ≠ .error .FORMAT_ERROR := by decide

/-- Claim C7 as amended: the minimum-length check rejects exactly the blobs
of at most 131 = 1 + 65 + 1 + 64 bytes with FORMAT_ERROR; a 132-byte blob
passes the length check (any later rejection comes from the DER decoders,
not from the framer's length check). -/
theorem C7_min_length_amended (ext : Externals) (mem : Bytes) (len : Nat)
    (h : len ≤ 1 + 65 + 1 + 64) :
    parse_registrationData2 ext mem len = .error .FORMAT_ERROR := by
  simp only [parse_registrationData2]
  rw [if_pos h]

/-- Witness for the amended C7: a 131-byte length is rejected. -/
theorem C7_min_length_amended_witness :
    131 ≤ 1 + 65 + 1 + 64 ∧
    parse_registrationData2 ext0 (List.replicate 131 5) 131 = .error .FORMAT_ERROR :=
  ⟨by decide, C7_min_length_amended ext0 (List.replicate 131 5) 131 (by decide)⟩

/-- Big-endian re-encoding of a byte-composed 32-bit value gives back the
bytes. -/
theorem beBytes4_comp (c0 c1 c2 c3 : Nat) (h0 : c0 < 256) (h1 : c1 < 256)
    (h2 : c2 < 256) (h3 : c3 < 256) :
    beBytes4 (c3 + c2 * 256 + c1 * 65536 + c0 * 16777216) = [c0, c1, c2, c3] := by
  simp only [beBytes4, List.cons.injEq, and_true]
  refine ⟨?_, ?_, ?_, ?_⟩ <;> omega

/-- Claim C8: on every successful authentication, the counter surfaced in the
result is the host-order unsigned 32-bit integer whose big-endian encoding is
exactly the 4 counter bytes at offsets 1..4 of the decoded signatureData: the
round trip big-endian bytes to host u32 back to big-endian bytes is the
identity. -/
theorem C8_counter_round_trip (ext : Externals) (ctx : u2fs_ctx_t)
    (response sd cd kh : Bytes) (c0 c1 c2 c3 : Nat) (r : u2fs_auth_res_t)
    (ha : parse_authentication_response ext response = .ok (sd, cd, kh))
    (hctr : ((ext.base64_decode sd).drop 1).take 4 = [c0, c1, c2, c3])
    (h0 : c0 < 256) (h1 : c1 < 256) (h2 : c2 < 256) (h3 : c3 < 256)
    (hout : (u2fs_authentication_verify ext ctx response).output = some r) :
    r.counter = ((c0 * 256 + c1) * 256 + c2) * 256 + c3 ∧
    beBytes4 r.counter = [c0, c1, c2, c3] := by
  rcases hs : parse_signatureData ext sd with rc | s
  · simp only [u2fs_authentication_verify, ha, hs] at hout
    exact absurd hout (by simp)
  · rcases hc : parse_clientData ext (decode_clientData ext cd) with rc | ⟨chal, org⟩
    · simp only [u2fs_authentication_verify, ha, hs, hc] at hout
      exact absurd hout (by simp)
    · rw [auth_verify_eq ext ctx response sd cd kh s chal org ha hs hc] at hout
      by_cases hch : ctx.challenge = chal
      case neg => rw [if_neg hch] at hout; exact absurd hout (by simp)
      rw [if_pos hch] at hout
      by_cases ho : ctx.origin = org
      case neg => rw [if_neg ho] at hout; exact absurd hout (by simp)
      rw [if_pos ho] at hout
      by_cases hv : ext.verify_ECDSA (ext.sha256 (authTranscript ext ctx cd s)) s.signature
          ctx.key = .OK
      case neg => rw [if_neg hv] at hout; exact absurd hout (by simp)
      rw [if_pos hv] at hout
      simp only [Option.some.injEq] at hout
      subst hout
      obtain ⟨-, -, hcc, -⟩ := parse_signatureData_ok ext sd s hs
      rw [hctr] at hcc
      have hLE : counterLE s.counter = c0 + c1 * 256 + c2 * 65536 + c3 * 16777216 := by
        rw [hcc]
        simp [counterLE]
      have hsw : bswap32 (counterLE s.counter)
          = c3 + c2 * 256 + c1 * 65536 + c0 * 16777216 := by
        rw [hLE]
        exact bswap32_bytes c0 c1 c2 c3 h0 h1 h2 h3
      constructor
      · show bswap32 (counterLE s.counter) = _
        rw [hsw]
        ring
      · show beBytes4 (bswap32 (counterLE s.counter)) = _
        rw [hsw]
        exact beBytes4_comp c0 c1 c2 c3 h0 h1 h2 h3

/-- Witness for C8: the concrete successful run with counter bytes
00 00 00 07 surfaces counter 7 whose big-endian encoding round-trips. -/
theorem C8_counter_round_trip_witness :
    (u2fs_authentication_verify ext0 ctx0 [97]).output = some ⟨.OK, 7, 1⟩ ∧
    (7 : Nat) = ((0 * 256 + 0) * 256 + 0) * 256 + 7 ∧
    beBytes4 7 = [0, 0, 0, 7] :=
  ⟨by decide,
    (C8_counter_round_trip ext0 ctx0 [97] [83] [67] [75] 0 0 0 7 ⟨.OK, 7, 1⟩
      (by decide) (by decide) (by decide) (by decide) (by decide) (by decide)
      (by decide)).1,
    (C8_counter_round_trip ext0 ctx0 [97] [83] [67] [75] 0 0 0 7 ⟨.OK, 7, 1⟩
      (by decide) (by decide) (by decide) (by decide) (by decide) (by decide)
      (by decide)).2⟩

/-- Claim C9: the websafe challenge encoder maps every 32-byte input to a
43-character unpadded websafe-base64 string that decodes back to the input,
and gen_challenge produces exactly that encoding of its 32 random bytes when
no challenge is stored. -/
theorem C9_challenge_encoding (b rand : Bytes) (ctx : u2fs_ctx_t)
    (hb : b.length = 32) (hball : ∀ x ∈ b, x < 256)
    (hc : ctx.challenge = []) (hr : rand.length = 32) :
    (encodeB64U b).length = 43 ∧ decodeB64U (encodeB64U b) = b ∧
    gen_challenge ctx rand = encodeB64U rand ∧ (gen_challenge ctx rand).length = 43 := by
  have hlen : ∀ c : Bytes, c.length = 32 → (encodeB64U c).length = 43 := by
    intro c hcl
    rw [encodeB64U_length, hcl]
    decide
  refine ⟨hlen b hb, decodeB64U_encodeB64U b hball, ?_, ?_⟩
  · simp [gen_challenge, hc]
  · rw [show gen_challenge ctx rand = encodeB64U rand from by simp [gen_challenge, hc]]
    exact hlen rand hr

/-- Witness for C9: the all-zero 32-byte challenge. -/
theorem C9_challenge_encoding_witness :
    (encodeB64U (List.replicate 32 0)).length = 43 ∧
    decodeB64U (encodeB64U (List.replicate 32 0)) = List.replicate 32 0 ∧
    gen_challenge ctxEmpty (List.replicate 32 0) = encodeB64U (List.replicate 32 0) :=
  ⟨(C9_challenge_encoding (List.replicate 32 0) (List.replicate 32 0) ctxEmpty
      (by decide) (by decide) (by decide) (by decide)).1,
   (C9_challenge_encoding (List.replicate 32 0) (List.replicate 32 0) ctxEmpty
      (by decide) (by decide) (by decide) (by decide)).2.1,
   (C9_challenge_encoding (List.replicate 32 0) (List.replicate 32 0) ctxEmpty
      (by decide) (by decide) (by decide) (by decide)).2.2.1⟩

/-- Claim C10: whenever u2fs_authentication_verify returns OK, a result is
emitted and its user_presence field equals exactly 1: the stored value is
the wire presence byte masked to its low bit, and a masked value of 0 was
rejected before any result was produced.  (decode_ECDSA is required not to
fail with the success code OK, as a C function signalling failure cannot.) -/
theorem C10_user_presence_one (ext : Externals) (ctx : u2fs_ctx_t) (response : Bytes)
    (hde : ∀ b r, ext.decode_ECDSA b = .error r → r ≠ .OK)
    (hOk : (u2fs_authentication_verify ext ctx response).rc = .OK) :
    (∃ r, (u2fs_authentication_verify ext ctx response).output = some r ∧
      r.user_presence = 1) ∧
    (∀ mem len s, parse_signatureData2 ext mem len = .ok s →
      s.user_presence = mem.getD 0 0 &&& 1 ∧ s.user_presence ≠ 0) := by
  constructor
  · rcases hA : parse_authentication_response ext response with rc | ⟨sd, cd, kh⟩
    · have hne := parse_authentication_response_error_ne_ok ext response rc hA
      simp only [u2fs_authentication_verify, hA] at hOk
      exact absurd hOk hne
    · rcases hs : parse_signatureData ext sd with rc | s
      · have hne := parse_signatureData_error_ne_ok ext sd rc hde hs
        simp only [u2fs_authentication_verify, hA, hs] at hOk
        exact absurd hOk hne
      · rcases hc : parse_clientData ext (decode_clientData ext cd) with rc | ⟨chal, org⟩
        · have hne := parse_clientData_error_ne_ok ext _ rc hc
          simp only [u2fs_authentication_verify, hA, hs, hc] at hOk
          exact absurd hOk hne
        · rw [auth_verify_eq ext ctx response sd cd kh s chal org hA hs hc] at hOk ⊢
          by_cases h1 : ctx.challenge = chal
          case neg => rw [if_neg h1] at hOk; exact absurd hOk (by decide)
          rw [if_pos h1] at hOk ⊢
          by_cases h2 : ctx.origin = org
          case neg => rw [if_neg h2] at hOk; exact absurd hOk (by decide)
          rw [if_pos h2] at hOk ⊢
          by_cases h3 : ext.verify_ECDSA (ext.sha256 (authTranscript ext ctx cd s))
              s.signature ctx.key = .OK
          case neg => rw [if_neg h3] at hOk; exact absurd hOk h3
          rw [if_pos h3]
          exact ⟨_, rfl, (parse_signatureData_ok ext sd s hs).2.1⟩
  · intro mem len s hps
    obtain ⟨hm, h1, -, -⟩ := parse_signatureData2_ok ext mem len s hps
    exact ⟨hm, by omega⟩

/-- Witness for C10: the concrete successful run yields user_presence 1. -/
theorem C10_user_presence_one_witness :
    (u2fs_authentication_verify ext0 ctx0 [97]).rc = .OK ∧
    ∃ r, (u2fs_authentication_verify ext0 ctx0 [97]).output = some r ∧
      r.user_presence = 1 :=
  ⟨by decide,
    (C10_user_presence_one ext0 ctx0 [97]
      (fun b r hb => by simp [ext0] at hb) (by decide)).1⟩
